import Mathlib

/- Shallow embedding of the single-flight token-refresh coordinator of this
repository: the axios response interceptor in services/axsiox.ts together
with utilities/setAxiosHeader.ts and utilities/getToken.ts.

The interceptor's shared mutable state (the module-level isRefreshing flag,
the refreshAndRetryQueue array, and localStorage) is modelled as an explicit
state record, and the single-threaded cooperative execution as a step
function over atomic actions. An action is either the arrival of a failure
callback (which runs synchronously up to its first suspension point or to
completion) or the completion of the pending leader's awaited refresh chain
(the `await Axios(...).then(...).catch(...)` statement, after which the
leader runs synchronously to the end of its turn: drain, queue reset,
finally, and the trailing `return new Promise(... queue.push ...)`).

Promise settlement bookkeeping: `settled` records synchronous settlements
of request promises (the `return Promise.reject(error)` paths); `dispatches`
records every request handed to axiosInstance, each tagged with the id of
the promise that its eventual outcome settles (`none` when the code
discards the outcome). A promise that appears in neither and is not backed
by a queue entry is pending forever. -/

namespace AxiosRefresh

/-- Credential store: models the localStorage keys "token" and
"refreshToken"; `none` models an absent key. -/
structure Store where
  token : Option String
  refreshToken : Option String
deriving DecidableEq, Repr

/-- getToken from utilities/getToken.ts: the stored access token, or null. -/
def getToken (s : Store) : Option String := s.token

/-- getRefreshToken from utilities/getToken.ts: the stored refresh token, or
null. -/
def getRefreshToken (s : Store) : Option String := s.refreshToken

/-- localStorage.clear(): every key is removed. -/
def clearStorage : Store := { token := none, refreshToken := none }

/-- An AxiosRequestConfig, reduced to what the coordinator observes: an
identifier tying the config to its caller's promise, and the Authorization
header currently set on it. -/
structure Config where
  id : Nat
  authHeader : Option String
deriving DecidableEq, Repr

/-- setAxiosHeader from utilities/setAxiosHeader.ts: when an access token is
stored, overwrite the config's Authorization header with it (Bearer scheme);
otherwise return the config unchanged. The request interceptor of
axiosInstance applies this to every request it dispatches. -/
def setAxiosHeader (store : Store) (config : Config) : Config :=
  match getToken store with
  | some t => { config with authHeader := some ("Bearer " ++ t) }
  | none => config

/-- How a request promise is settled synchronously by the interceptor. -/
inductive Settle where
  | resolved
  | rejectedOriginal
deriving DecidableEq, Repr

/-- A request handed to axiosInstance: the config as dispatched (after the
request interceptor ran setAxiosHeader), and the id of the promise that the
dispatch outcome settles — `none` when the code discards the outcome. -/
structure Dispatch where
  cfg : Config
  settles : Option Nat
deriving DecidableEq, Repr

/-- Outcome of the leader's awaited refresh chain
`await Axios(POST refreshtoken).then(...).catch(...)`:
`success` — the refresh call resolved, the then-handler stored both tokens
and dispatched the leader's original request (whose outcome the chain
returns but the interceptor discards);
`failure` — the refresh call rejected and the catch-handler ran
(console.log and localStorage.clear()), recovering the chain;
`threw` — the chain itself threw out of the await (a handler's storage
operation throwing), entering the interceptor's catch block. -/
inductive RefreshOutcome where
  | success (newToken : String) (newRefreshToken : String)
  | failure
  | threw
deriving DecidableEq, Repr

/-- The interceptor's shared state plus instrumentation.
`isRefreshing` and `refreshAndRetryQueue` are the module-level mutable
variables of services/axsiox.ts; `store` is localStorage;
`navigatedToRoot` records `window.location.href = "/"`;
`refreshCalls` counts POSTs to the refresh endpoint;
`pendingLeader` holds the leader suspended at the refresh await;
`dispatches` and `settled` are the instrumentation logs. -/
structure SysState where
  isRefreshing : Bool
  refreshAndRetryQueue : List Config
  store : Store
  navigatedToRoot : Bool
  refreshCalls : Nat
  pendingLeader : Option Config
  dispatches : List Dispatch
  settled : List (Nat × Settle)
deriving DecidableEq, Repr

/-- An atomic scheduler action: a response-failure callback arriving with an
optional HTTP status (`none` models an error with no response object), or
the pending leader's refresh chain completing. -/
inductive Action where
  | arrive (cfg : Config) (status : Option Nat)
  | refreshDone (outcome : RefreshOutcome)
deriving DecidableEq, Repr

/-- The drain loop `refreshAndRetryQueue.forEach(({config, resolve, reject})
=> axiosInstance(config).then(resolve).catch(reject))`: each queued config
is dispatched through the request interceptor (setAxiosHeader at the current
store) and its outcome is routed to that entry's resolve/reject pair. -/
def drainDispatches (store : Store) (queue : List Config) : List Dispatch :=
  queue.map (fun c => { cfg := setAxiosHeader store c, settles := some c.id })

/-- One atomic step of the response interceptor of services/axsiox.ts. -/
def step (st : SysState) (a : Action) : SysState :=
  match a with
  | .arrive cfg status =>
    if status = some 401 then
      if st.isRefreshing then
        -- Case B: a refresh is in flight; fall through to the trailing
        -- `return new Promise(... refreshAndRetryQueue.push ...)`.
        { st with refreshAndRetryQueue := st.refreshAndRetryQueue ++ [cfg] }
      else
        -- Case A: leader election. isRefreshing = true, then getRefreshToken
        -- runs with no suspension point in between.
        match getRefreshToken st.store with
        | none =>
          -- else branch: localStorage.clear(); window.location.href = "/";
          -- return Promise.reject(error); the finally resets the flag.
          { st with store := clearStorage,
                    navigatedToRoot := true,
                    isRefreshing := false,
                    settled := st.settled ++ [(cfg.id, Settle.rejectedOriginal)] }
        | some _ =>
          -- the POST to api/v1/auth/refreshtoken is issued and the leader
          -- suspends at the await.
          { st with isRefreshing := true,
                    refreshCalls := st.refreshCalls + 1,
                    pendingLeader := some cfg }
    else
      -- non-401 (or no response): return Promise.reject(error).
      { st with settled := st.settled ++ [(cfg.id, Settle.rejectedOriginal)] }
  | .refreshDone outcome =>
    match st.pendingLeader with
    | none => st
    | some leaderCfg =>
      match outcome with
      | .success t rt =>
        -- then-handler: setItem both tokens, dispatch axiosInstance(
        -- originalRequest) (outcome discarded by the interceptor); then the
        -- drain, queue reset, finally, and the trailing push of the leader.
        let store' : Store := { token := some t, refreshToken := some rt }
        { st with store := store',
                  dispatches := st.dispatches
                    ++ ({ cfg := setAxiosHeader store' leaderCfg, settles := none }
                        :: drainDispatches store' st.refreshAndRetryQueue),
                  refreshAndRetryQueue := [leaderCfg],
                  isRefreshing := false,
                  pendingLeader := none }
      | .failure =>
        -- catch-handler: console.log, localStorage.clear(); the chain
        -- recovers, so the drain still runs, then queue reset, finally, and
        -- the trailing push of the leader.
        { st with store := clearStorage,
                  dispatches := st.dispatches
                    ++ drainDispatches clearStorage st.refreshAndRetryQueue,
                  refreshAndRetryQueue := [leaderCfg],
                  isRefreshing := false,
                  pendingLeader := none }
      | .threw =>
        -- catch (refreshError): refreshAndRetryQueue.length = 0 (entries
        -- discarded with neither callback invoked), localStorage.clear();
        -- finally, then the trailing push of the leader.
        { st with store := clearStorage,
                  refreshAndRetryQueue := [leaderCfg],
                  isRefreshing := false,
                  pendingLeader := none }

/-- Run a list of atomic actions from a state. -/
def run (st : SysState) (as : List Action) : SysState := as.foldl step st

/-- The module-level initial state of services/axsiox.ts: flag down, queue
empty, no navigation, no calls, pending nothing; localStorage as given. -/
def initState (store : Store) : SysState :=
  { isRefreshing := false, refreshAndRetryQueue := [], store := store,
    navigatedToRoot := false, refreshCalls := 0, pendingLeader := none,
    dispatches := [], settled := [] }

/-- The dispatches appended to the log by one action. -/
def newDispatches (st : SysState) (a : Action) : List Dispatch :=
  (step st a).dispatches.drop st.dispatches.length

/-- Helper: a 401 arriving while the flag is up only appends to the queue. -/
theorem step_caseB (st : SysState) (cfg : Config) (h : st.isRefreshing = true) :
    step st (Action.arrive cfg (some 401))
      = { st with refreshAndRetryQueue := st.refreshAndRetryQueue ++ [cfg] } := by
  simp [step, h]

/-- Helper: a 401 arriving with the flag down and a refresh token stored
elects a leader: flag up, one more refresh call, leader pending. -/
theorem step_leader (st : SysState) (cfg : Config) (r : String)
    (h : st.isRefreshing = false) (hr : getRefreshToken st.store = some r) :
    step st (Action.arrive cfg (some 401))
      = { st with isRefreshing := true,
                  refreshCalls := st.refreshCalls + 1,
                  pendingLeader := some cfg } := by
  simp [step, h, hr]

/-- Helper: running a batch of 401 arrivals while the flag is up appends
them all to the queue, in order, and changes nothing else. -/
theorem run_caseB_batch (fs : List Config) (st : SysState)
    (h : st.isRefreshing = true) :
    run st (fs.map (fun c => Action.arrive c (some 401)))
      = { st with refreshAndRetryQueue := st.refreshAndRetryQueue ++ fs } := by
  induction fs generalizing st with
  | nil => simp [run]
  | cons c cs ih =>
    have hstep := step_caseB st c h
    simp only [List.map_cons, run, List.foldl_cons] at *
    rw [hstep, ih { st with refreshAndRetryQueue := st.refreshAndRetryQueue ++ [c] } h]
    simp

/-- Helper: the drain routes exactly one dispatch to each queued entry, in
queue order. -/
theorem drainDispatches_settles (store : Store) (queue : List Config) :
    (drainDispatches store queue).filterMap Dispatch.settles
      = queue.map Config.id := by
  induction queue with
  | nil => simp [drainDispatches]
  | cons c cs ih => simp [drainDispatches, List.filterMap_cons] at *; exact ih

/-- C1: Single-flight. A 401 failure arriving while isRefreshing is true is
appended to refreshAndRetryQueue and changes nothing else — in particular it
never starts a second refresh call. Consequently, when a refresh credential
is stored and N ≥ 2 concurrent 401 failures arrive starting from a state
with no refresh in flight (the first elects the leader, the rest arrive
while the leader's refresh is in flight), exactly one call is made to the
refresh endpoint and the other N−1 requests are enqueued, in order, without
calling it. -/
theorem single_flight :
    (∀ (st : SysState) (cfg : Config), st.isRefreshing = true →
      step st (Action.arrive cfg (some 401))
        = { st with refreshAndRetryQueue := st.refreshAndRetryQueue ++ [cfg] })
    ∧ (∀ (store : Store) (r : String) (lc : Config) (fs : List Config),
        store.refreshToken = some r → fs ≠ [] →
        (run (initState store)
          (Action.arrive lc (some 401)
            :: fs.map (fun c => Action.arrive c (some 401)))).refreshCalls = 1
        ∧ (run (initState store)
            (Action.arrive lc (some 401)
              :: fs.map (fun c => Action.arrive c (some 401)))).refreshAndRetryQueue
          = fs) := by
  constructor
  · intro st cfg h
    exact step_caseB st cfg h
  · intro store r lc fs hr _
    have h1 : step (initState store) (Action.arrive lc (some 401))
        = { initState store with isRefreshing := true,
                                 refreshCalls := 1,
                                 pendingLeader := some lc } := by
      simpa [initState] using
        step_leader (initState store) lc r (by simp [initState]) (by simp [initState, getRefreshToken, hr])
    have h2 := run_caseB_batch fs
      { initState store with isRefreshing := true,
                             refreshCalls := 1,
                             pendingLeader := some lc } (by simp)
    simp only [run, List.foldl_cons] at *
    rw [h1, h2]
    simp [initState]

/-- C1 witness: three concurrent 401 failures with a refresh token stored
make exactly one refresh call and enqueue the other two in order. -/
theorem single_flight_witness :
    (run (initState { token := some "t0", refreshToken := some "r0" })
      (Action.arrive { id := 1, authHeader := none } (some 401)
        :: ([{ id := 2, authHeader := none }, { id := 3, authHeader := none }]
              : List Config).map (fun c => Action.arrive c (some 401)))).refreshCalls = 1
    ∧ (run (initState { token := some "t0", refreshToken := some "r0" })
        (Action.arrive { id := 1, authHeader := none } (some 401)
          :: ([{ id := 2, authHeader := none }, { id := 3, authHeader := none }]
                : List Config).map (fun c => Action.arrive c (some 401)))).refreshAndRetryQueue
      = [{ id := 2, authHeader := none }, { id := 3, authHeader := none }] :=
  single_flight.2 { token := some "t0", refreshToken := some "r0" } "r0"
    { id := 1, authHeader := none }
    [{ id := 2, authHeader := none }, { id := 3, authHeader := none }]
    rfl (by decide)

/-- C7: Non-auth passthrough with no state change. A failure whose status is
not 401 is rejected back to the caller with the original error, and the
state — isRefreshing, the queue, the credential store, everything else — is
left untouched. -/
theorem non_auth_passthrough (st : SysState) (cfg : Config) (status : Option Nat)
    (h : status ≠ some 401) :
    step st (Action.arrive cfg status)
      = { st with settled := st.settled ++ [(cfg.id, Settle.rejectedOriginal)] } := by
  simp [step, h]

/-- C7 witness: a status-500 failure is rejected with no state change. -/
theorem non_auth_passthrough_witness :
    step (initState { token := some "t0", refreshToken := some "r0" })
        (Action.arrive { id := 7, authHeader := none } (some 500))
      = { initState { token := some "t0", refreshToken := some "r0" } with
          settled := (initState { token := some "t0", refreshToken := some "r0" }).settled
            ++ [(7, Settle.rejectedOriginal)] } :=
  non_auth_passthrough (initState { token := some "t0", refreshToken := some "r0" })
    { id := 7, authHeader := none } (some 500) (by decide)

/-- C10: a failure with no response object at all (no HTTP status) bypasses
the coordinator entirely: the error is rejected unchanged and isRefreshing,
the queue and the store are untouched. -/
theorem no_response_passthrough (st : SysState) (cfg : Config) :
    step st (Action.arrive cfg none)
      = { st with settled := st.settled ++ [(cfg.id, Settle.rejectedOriginal)] } := by
  simp [step]

/-- C8: terminal missing-refresh-credential path. A 401 becoming leader with
no stored refresh token clears the store, signals navigation to "/",
rejects the triggering request's promise with the original error, and makes
no call to the refresh endpoint (refreshCalls, the queue and the dispatch
log are unchanged by the resulting state equality). -/
theorem missing_refresh_terminal (st : SysState) (cfg : Config)
    (h : st.isRefreshing = false) (hr : getRefreshToken st.store = none) :
    step st (Action.arrive cfg (some 401))
      = { st with store := clearStorage,
                  navigatedToRoot := true,
                  isRefreshing := false,
                  settled := st.settled ++ [(cfg.id, Settle.rejectedOriginal)] } := by
  simp [step, h, hr]

/-- C8 witness: with no refresh token stored, a 401 ends with cleared store,
navigation signaled, the request rejected, and zero refresh calls. -/
theorem missing_refresh_terminal_witness :
    step (initState { token := some "t0", refreshToken := none })
        (Action.arrive { id := 4, authHeader := none } (some 401))
      = { initState { token := some "t0", refreshToken := none } with
          store := clearStorage, navigatedToRoot := true, isRefreshing := false,
          settled := [(4, Settle.rejectedOriginal)] } :=
  missing_refresh_terminal (initState { token := some "t0", refreshToken := none })
    { id := 4, authHeader := none } rfl rfl

/-- C3, evaluated at the failing input: a single 401 leader whose refresh
succeeds with new tokens. The new credentials are persisted and the leader's
original request is resubmitted carrying the new token, but the dispatch is
tagged settles = none (the interceptor discards the chain's value), the
settled log stays empty (the leader's promise is never settled), and the
leader's config ends up pushed onto refreshAndRetryQueue by the trailing
`return new Promise` — contradicting the claim that the resubmission's
outcome settles the leader's promise and that the leader is not enqueued. -/
theorem leader_left_pending_after_success :
    run (initState { token := some "t0", refreshToken := some "r0" })
        [Action.arrive { id := 1, authHeader := some "Bearer t0" } (some 401),
         Action.refreshDone (RefreshOutcome.success "t1" "r1")]
      = { isRefreshing := false,
          refreshAndRetryQueue := [{ id := 1, authHeader := some "Bearer t0" }],
          store := { token := some "t1", refreshToken := some "r1" },
          navigatedToRoot := false,
          refreshCalls := 1,
          pendingLeader := none,
          dispatches := [{ cfg := { id := 1, authHeader := some ("Bearer " ++ "t1") },
                           settles := none }],
          settled := [] } := by
  decide

/-- C4, evaluated at the failing input: a single 401 leader whose refresh
call fails. The store is cleared and the leader's request is not resubmitted
(the dispatch log is empty), matching the claim's first two parts — but the
settled log stays empty, so the leader's promise is never rejected with the
refresh error; instead the leader's config is pushed onto
refreshAndRetryQueue, left pending for a future leader to drain. -/
theorem leader_left_pending_after_refresh_failure :
    run (initState { token := some "t0", refreshToken := some "r0" })
        [Action.arrive { id := 1, authHeader := some "Bearer t0" } (some 401),
         Action.refreshDone RefreshOutcome.failure]
      = { isRefreshing := false,
          refreshAndRetryQueue := [{ id := 1, authHeader := some "Bearer t0" }],
          store := clearStorage,
          navigatedToRoot := false,
          refreshCalls := 1,
          pendingLeader := none,
          dispatches := [],
          settled := [] } := by
  decide

/-- C2 counterexample: leader (id 1) elected, follower (id 2) enqueued while
isRefreshing is true, then the leader's refresh chain throws, entering the
interceptor's catch block. The leader's turn completes (flag down, no
pending leader), yet the follower was dropped from the queue with neither of
its callbacks invoked and no replay dispatched for it — its promise is left
pending indefinitely, refuting exactly-once settlement on the exception exit
path. -/
theorem follower_dropped_on_exception :
    ((run (initState { token := some "t0", refreshToken := some "r0" })
        [Action.arrive { id := 1, authHeader := none } (some 401),
         Action.arrive { id := 2, authHeader := none } (some 401)]).isRefreshing = true
      ∧ (run (initState { token := some "t0", refreshToken := some "r0" })
          [Action.arrive { id := 1, authHeader := none } (some 401),
           Action.arrive { id := 2, authHeader := none } (some 401)]).refreshAndRetryQueue
        = [{ id := 2, authHeader := none }])
    ∧ ((run (initState { token := some "t0", refreshToken := some "r0" })
          [Action.arrive { id := 1, authHeader := none } (some 401),
           Action.arrive { id := 2, authHeader := none } (some 401),
           Action.refreshDone RefreshOutcome.threw]).isRefreshing = false
        ∧ (run (initState { token := some "t0", refreshToken := some "r0" })
            [Action.arrive { id := 1, authHeader := none } (some 401),
             Action.arrive { id := 2, authHeader := none } (some 401),
             Action.refreshDone RefreshOutcome.threw]).pendingLeader = none
        ∧ (∀ s ∈ (run (initState { token := some "t0", refreshToken := some "r0" })
            [Action.arrive { id := 1, authHeader := none } (some 401),
             Action.arrive { id := 2, authHeader := none } (some 401),
             Action.refreshDone RefreshOutcome.threw]).settled, s.1 ≠ 2)
        ∧ (∀ d ∈ (run (initState { token := some "t0", refreshToken := some "r0" })
            [Action.arrive { id := 1, authHeader := none } (some 401),
             Action.arrive { id := 2, authHeader := none } (some 401),
             Action.refreshDone RefreshOutcome.threw]).dispatches, d.settles ≠ some 2)
        ∧ (∀ c ∈ (run (initState { token := some "t0", refreshToken := some "r0" })
            [Action.arrive { id := 1, authHeader := none } (some 401),
             Action.arrive { id := 2, authHeader := none } (some 401),
             Action.refreshDone RefreshOutcome.threw]).refreshAndRetryQueue, c.id ≠ 2)) := by
  decide

/-- C2 as amended: when the leader's refresh chain completes through the
success or the failure path, every queued follower is removed from the queue
(which afterwards holds exactly the leader's own pushed config) and exactly
one replay dispatch is routed to each follower's resolve/reject pair, in
queue order, so each follower settles exactly once — when its replay
completes, not within the leader's turn (the synchronous settled log is
unchanged). When the chain throws, the catch block drops all queued
followers with no dispatch routed to them and no settlement. -/
theorem drain_settles_each_follower_once (st : SysState) (lc : Config)
    (h : st.pendingLeader = some lc) (t rt : String) :
    ((step st (Action.refreshDone (RefreshOutcome.success t rt))).refreshAndRetryQueue = [lc]
      ∧ (newDispatches st (Action.refreshDone (RefreshOutcome.success t rt))).filterMap
          Dispatch.settles = st.refreshAndRetryQueue.map Config.id
      ∧ (step st (Action.refreshDone (RefreshOutcome.success t rt))).settled = st.settled)
    ∧ ((step st (Action.refreshDone RefreshOutcome.failure)).refreshAndRetryQueue = [lc]
      ∧ (newDispatches st (Action.refreshDone RefreshOutcome.failure)).filterMap
          Dispatch.settles = st.refreshAndRetryQueue.map Config.id
      ∧ (step st (Action.refreshDone RefreshOutcome.failure)).settled = st.settled)
    ∧ ((step st (Action.refreshDone RefreshOutcome.threw)).refreshAndRetryQueue = [lc]
      ∧ newDispatches st (Action.refreshDone RefreshOutcome.threw) = []
      ∧ (step st (Action.refreshDone RefreshOutcome.threw)).settled = st.settled) := by
  refine ⟨⟨?_, ?_, ?_⟩, ⟨?_, ?_, ?_⟩, ⟨?_, ?_, ?_⟩⟩ <;>
    simp [step, h, newDispatches, List.drop_left, List.filterMap_cons,
      drainDispatches_settles]

/-- A concrete mid-flight state: leader id 1 suspended at the refresh await,
followers with ids 2 and 3 queued, original token t0 still stored. -/
def midFlightState : SysState :=
  { isRefreshing := true,
    refreshAndRetryQueue := [{ id := 2, authHeader := none },
                             { id := 3, authHeader := none }],
    store := { token := some "t0", refreshToken := some "r0" },
    navigatedToRoot := false,
    refreshCalls := 1,
    pendingLeader := some { id := 1, authHeader := none },
    dispatches := [],
    settled := [] }

/-- C2 witness: at the concrete mid-flight state, a successful refresh to
token t1 drains followers 2 and 3, routing one dispatch to each. -/
theorem drain_settles_each_follower_once_witness :
    ((step midFlightState
        (Action.refreshDone (RefreshOutcome.success "t1" "r1"))).refreshAndRetryQueue
        = [{ id := 1, authHeader := none }]
      ∧ (newDispatches midFlightState
          (Action.refreshDone (RefreshOutcome.success "t1" "r1"))).filterMap
            Dispatch.settles = [2, 3]) := by
  have h := drain_settles_each_follower_once midFlightState
    { id := 1, authHeader := none } rfl "t1" "r1"
  exact ⟨h.1.1, h.1.2.1⟩

/-- C5: FIFO fairness. Starting from the initial state with a refresh token
stored, a leader followed by followers enqueued in order fs, then a
successful refresh: the dispatches whose outcomes settle follower promises
occur exactly in arrival order fs (the only other dispatch, the leader's
retry, settles nothing). -/
theorem fifo_drain (store : Store) (r : String) (hr : store.refreshToken = some r)
    (lc : Config) (fs : List Config) (t rt : String) :
    (run (initState store)
      ((Action.arrive lc (some 401) :: fs.map (fun c => Action.arrive c (some 401)))
        ++ [Action.refreshDone (RefreshOutcome.success t rt)])).dispatches.filterMap
      Dispatch.settles = fs.map Config.id := by
  have h1 : step (initState store) (Action.arrive lc (some 401))
      = { initState store with isRefreshing := true,
                               refreshCalls := 1,
                               pendingLeader := some lc } := by
    simpa [initState] using
      step_leader (initState store) lc r (by simp [initState])
        (by simp [initState, getRefreshToken, hr])
  have h2 := run_caseB_batch fs
    { initState store with isRefreshing := true,
                           refreshCalls := 1,
                           pendingLeader := some lc } (by simp)
  simp only [run, List.foldl_append, List.foldl_cons] at *
  rw [h1, h2]
  simp [initState, step, List.foldl_cons, List.filterMap_cons, drainDispatches_settles]

/-- C5 witness: followers enqueued in order [A, B, C] (ids 2, 3, 4) are
replayed in order [2, 3, 4]. -/
theorem fifo_drain_witness :
    (run (initState { token := some "t0", refreshToken := some "r0" })
      ((Action.arrive { id := 1, authHeader := none } (some 401)
          :: ([{ id := 2, authHeader := none }, { id := 3, authHeader := none },
               { id := 4, authHeader := none }] : List Config).map
               (fun c => Action.arrive c (some 401)))
        ++ [Action.refreshDone (RefreshOutcome.success "t1" "r1")])).dispatches.filterMap
      Dispatch.settles = [2, 3, 4] :=
  fifo_drain { token := some "t0", refreshToken := some "r0" } "r0" rfl
    { id := 1, authHeader := none }
    [{ id := 2, authHeader := none }, { id := 3, authHeader := none },
     { id := 4, authHeader := none }] "t1" "r1"

/-- C6: the flag is released on every leader exit path. Whatever the refresh
outcome (success, failure, or the chain throwing into the catch block),
isRefreshing is false after the leader's turn; on the missing-refresh-token
exit it is likewise false. Moreover, with the flag down a subsequent 401
never joins the queue: with a refresh token stored it elects a new leader
(pendingLeader set, one more refresh call). -/
theorem flag_released_on_all_exits :
    (∀ (st : SysState) (lc : Config) (outcome : RefreshOutcome),
      st.pendingLeader = some lc →
      (step st (Action.refreshDone outcome)).isRefreshing = false)
    ∧ (∀ (st : SysState) (cfg : Config), st.isRefreshing = false →
        getRefreshToken st.store = none →
        (step st (Action.arrive cfg (some 401))).isRefreshing = false)
    ∧ (∀ (st : SysState) (cfg : Config), st.isRefreshing = false →
        (step st (Action.arrive cfg (some 401))).refreshAndRetryQueue
          = st.refreshAndRetryQueue)
    ∧ (∀ (st : SysState) (cfg : Config) (r : String), st.isRefreshing = false →
        getRefreshToken st.store = some r →
        (step st (Action.arrive cfg (some 401))).pendingLeader = some cfg
        ∧ (step st (Action.arrive cfg (some 401))).refreshCalls
          = st.refreshCalls + 1) := by
  refine ⟨?_, ?_, ?_, ?_⟩
  · intro st lc outcome h
    cases outcome <;> simp [step, h]
  · intro st cfg h hr
    simp [step, h, hr]
  · intro st cfg h
    cases hr : getRefreshToken st.store <;> simp [step, h, hr]
  · intro st cfg r h hr
    simp [step, h, hr]

/-- C6 witness: concrete instances of each exit path and of the subsequent
re-election. -/
theorem flag_released_on_all_exits_witness :
    (step { isRefreshing := true, refreshAndRetryQueue := [],
            store := { token := some "t0", refreshToken := some "r0" },
            navigatedToRoot := false, refreshCalls := 1,
            pendingLeader := some { id := 1, authHeader := none },
            dispatches := [], settled := [] }
        (Action.refreshDone RefreshOutcome.threw)).isRefreshing = false
    ∧ (step (initState { token := some "t0", refreshToken := none })
        (Action.arrive { id := 2, authHeader := none } (some 401))).isRefreshing = false
    ∧ (step (initState { token := some "t0", refreshToken := none })
        (Action.arrive { id := 2, authHeader := none } (some 401))).refreshAndRetryQueue
      = (initState { token := some "t0", refreshToken := none }).refreshAndRetryQueue
    ∧ ((step (initState { token := some "t0", refreshToken := some "r0" })
          (Action.arrive { id := 3, authHeader := none } (some 401))).pendingLeader
        = some { id := 3, authHeader := none }
      ∧ (step (initState { token := some "t0", refreshToken := some "r0" })
          (Action.arrive { id := 3, authHeader := none } (some 401))).refreshCalls
        = (initState { token := some "t0", refreshToken := some "r0" }).refreshCalls + 1) :=
  ⟨flag_released_on_all_exits.1 _ { id := 1, authHeader := none }
      RefreshOutcome.threw rfl,
   flag_released_on_all_exits.2.1 _ { id := 2, authHeader := none } rfl rfl,
   flag_released_on_all_exits.2.2.1 _ { id := 2, authHeader := none } rfl,
   flag_released_on_all_exits.2.2.2 _ { id := 3, authHeader := none } "r0" rfl rfl⟩

/-- C9: current-credential replay. On a successful refresh storing access
token t, every queued follower — whatever Authorization header its config
captured at original failure time — is redispatched with header Bearer t,
the token in the store at replay time, routed to that follower's promise. -/
theorem replay_carries_current_token (st : SysState) (lc : Config)
    (h : st.pendingLeader = some lc) (t rt : String) (f : Config)
    (hf : f ∈ st.refreshAndRetryQueue) :
    ({ cfg := { id := f.id, authHeader := some ("Bearer " ++ t) },
       settles := some f.id } : Dispatch)
      ∈ (step st (Action.refreshDone (RefreshOutcome.success t rt))).dispatches := by
  simp only [step, h]
  refine List.mem_append_right _ (List.mem_cons_of_mem _ ?_)
  simp only [drainDispatches, List.mem_map]
  exact ⟨f, hf, by cases f; rfl⟩

/-- C9 witness: a follower that originally carried Bearer t1 is replayed
with Bearer t2 after the refresh stored t2. -/
theorem replay_carries_current_token_witness :
    ({ cfg := { id := 2, authHeader := some ("Bearer " ++ "t2") },
       settles := some 2 } : Dispatch)
      ∈ (step { isRefreshing := true,
                refreshAndRetryQueue := [{ id := 2, authHeader := some "Bearer t1" }],
                store := { token := some "t1", refreshToken := some "r0" },
                navigatedToRoot := false, refreshCalls := 1,
                pendingLeader := some { id := 1, authHeader := none },
                dispatches := [], settled := [] }
          (Action.refreshDone (RefreshOutcome.success "t2" "r1"))).dispatches :=
  replay_carries_current_token _ { id := 1, authHeader := none } rfl "t2" "r1"
    { id := 2, authHeader := some "Bearer t1" } (by decide)

end AxiosRefresh
